import Mathlib

/-!
Shallow embedding of `cuda_setup.py` (cusim build system): CUDA toolchain
discovery, version-to-flag resolution, and the compiler dispatch layer.

Environments are modelled as `String → Option String` (Python `os.environ`
lookups), the filesystem as a `String → Bool` existence predicate plus
`realpath`/`abspath` functions, and Python exceptions as an explicit error
type.  Paths follow POSIX `os.path` semantics.
-/

/-- Python exceptions that can escape the embedded code. -/
inductive PyExc where
  | indexError
  | valueError
  | keyError
  | assertionError
deriving DecidableEq, Repr

/-- The environment/filesystem a run of `locate_cuda` observes. -/
structure OS where
  env : String → Option String
  pathExists : String → Bool
  platform : String
  realpath : String → String
  abspath : String → String

/-- `HALF_PRECISION` module constant (line 23 of the source): `False`. -/
def HALF_PRECISION : Bool := false

/-- Structural test: the first list starts the second. -/
def listStartsList : List Char → List Char → Bool
  | [], _ => true
  | _ :: _, [] => false
  | a :: as, b :: bs => a == b && listStartsList as bs

/-- Python substring membership `needle in hay`, on character lists. -/
def listHasSub (needle : List Char) : List Char → Bool
  | [] => listStartsList needle []
  | b :: bs => listStartsList needle (b :: bs) || listHasSub needle bs

/-- Python `s.startswith(pre)`. -/
def strStartsWith (s pre : String) : Bool :=
  listStartsList pre.data s.data

/-- Python `s.endswith(suf)`. -/
def strEndsWith (s suf : String) : Bool :=
  listStartsList suf.data.reverse s.data.reverse

/-- Python `str.split(c)` for a single-character separator, on lists:
occurrences of the separator delimit (possibly empty) parts. -/
def splitCharList (c : Char) : List Char → List (List Char)
  | [] => [[]]
  | a :: as =>
    match splitCharList c as with
    | [] => [[]]
    | r :: rs => if a == c then [] :: r :: rs else (a :: r) :: rs

/-- Python `str.split(c)` for a single-character separator. -/
def pySplitChar (c : Char) (s : String) : List String :=
  (splitCharList c s.data).map String.mk

/-- Python `str.strip()` restricted to whitespace. -/
def pyTrim (s : String) : String :=
  String.mk (((s.data.dropWhile Char.isWhitespace).reverse.dropWhile
    Char.isWhitespace).reverse)

/-- POSIX `os.path.join` for two components. -/
def joinPath (a b : String) : String :=
  if strStartsWith b "/" then b
  else if a = "" ∨ strEndsWith a "/" then a ++ b
  else a ++ "/" ++ b

/-- Index of the last occurrence of `c` in `cs` (Python `str.rfind`). -/
def lastIdx (c : Char) (cs : List Char) : Option Nat :=
  (cs.reverse.findIdx? (fun x => x == c)).map (fun i => cs.length - 1 - i)

/-- POSIX `os.path.basename`: everything after the last slash. -/
def pyBasename (p : String) : String :=
  (pySplitChar '/' p).getLastD ""

/-- POSIX `os.path.dirname`. -/
def pyDirname (p : String) : String :=
  match lastIdx '/' p.data with
  | none => ""
  | some i =>
    let head := p.data.take (i + 1)
    if head ≠ [] ∧ ¬ (head.all (fun ch => ch == '/')) then
      String.mk ((head.reverse.dropWhile (fun ch => ch == '/')).reverse)
    else String.mk head

/-- Python `int(s)` on decimal strings: optional surrounding whitespace,
optional sign, then at least one ASCII digit; `none` models `ValueError`. -/
def pyInt (s : String) : Option Int :=
  let t := pyTrim s
  let core :=
    if strStartsWith t "-" || strStartsWith t "+" then String.mk (t.data.drop 1)
    else t
  if core ≠ "" ∧ core.data.all Char.isDigit then
    let n : Nat := core.data.foldl (fun acc c => 10 * acc + (c.toNat - 48)) 0
    some (if strStartsWith t "-" then -(n : Int) else (n : Int))
  else none

/-- Python `needle in hay` substring test. -/
def pySubstr (needle hay : String) : Bool :=
  listHasSub needle.data hay.data

/-- `find_in_path(name, path)` (lines 25-33): first directory on the search
path containing `name`; the hit is made absolute. -/
def find_in_path (os : OS) (name path : String) : Option String :=
  ((pySplitChar ':' path).find? (fun dir => os.pathExists (joinPath dir name))).map
    (fun dir => os.abspath (joinPath dir name))

/-- `get_cuda_sm_list` (lines 37-55 of the source). -/
def get_cuda_sm_list (env : String → Option String) (cuda_ver : Int) : List String :=
  match env "CUDA_SM_LIST" with
  | some s => pySplitChar ',' s
  | none =>
    let sm_list : List String := ["30", "52", "60", "61", "70", "75", "80", "86"]
    let filter_list : List String :=
      if cuda_ver ≥ 110 then
        ["30"] ++ (if cuda_ver = 110 then ["86"] else [])
      else
        ["80", "86"]
          ++ (if cuda_ver < 100 then ["75"] else [])
          ++ (if cuda_ver < 90 then ["70"] else [])
          ++ (if cuda_ver < 80 then ["60", "61"] else [])
    sm_list.filter (fun sm => !(filter_list.contains sm))

/-- `get_cuda_compute` (lines 58-81 of the source). -/
def get_cuda_compute (env : String → Option String) (cuda_ver : Int) : String :=
  match env "CUDA_COMPUTE" with
  | some c => c
  | none =>
    if 70 ≤ cuda_ver ∧ cuda_ver < 80 then "52"
    else if 80 ≤ cuda_ver ∧ cuda_ver < 90 then "61"
    else if 90 ≤ cuda_ver ∧ cuda_ver < 100 then "70"
    else if 100 ≤ cuda_ver ∧ cuda_ver < 110 then "75"
    else if cuda_ver = 110 then "80"
    else if 111 ≤ cuda_ver ∧ cuda_ver < 115 then "86"
    else if 115 ≤ cuda_ver ∧ cuda_ver < 120 then "89"
    else if 120 ≤ cuda_ver ∧ cuda_ver ≤ 128 then "90"
    else "90"

/-- `get_cuda_arch` (lines 84-101 of the source). -/
def get_cuda_arch (env : String → Option String) (cuda_ver : Int) : String :=
  match env "CUDA_ARCH" with
  | some a => a
  | none =>
    if 70 ≤ cuda_ver ∧ cuda_ver < 92 then "30"
    else if 92 ≤ cuda_ver ∧ cuda_ver < 110 then "50"
    else if cuda_ver = 110 then "52"
    else if 111 ≤ cuda_ver ∧ cuda_ver < 120 then "80"
    else if 120 ≤ cuda_ver ∧ cuda_ver ≤ 128 then "90"
    else "90"

/-- The spec's arch table: [70,92)→"30"; [92,110)→"50"; 110→"52";
[111,120)→"80"; [120,128]→"90"; else "90". -/
def specArchFlag (v : Int) : String :=
  if 70 ≤ v ∧ v < 92 then "30"
  else if 92 ≤ v ∧ v < 110 then "50"
  else if v = 110 then "52"
  else if 111 ≤ v ∧ v < 120 then "80"
  else if 120 ≤ v ∧ v ≤ 128 then "90"
  else "90"

/-- The spec's compute table: [70,80)→"52"; [80,90)→"61"; [90,100)→"70";
[100,110)→"75"; 110→"80"; [111,115)→"86"; [115,120)→"89"; [120,128]→"90";
else "90". -/
def specComputeFlag (v : Int) : String :=
  if 70 ≤ v ∧ v < 80 then "52"
  else if 80 ≤ v ∧ v < 90 then "61"
  else if 90 ≤ v ∧ v < 100 then "70"
  else if 100 ≤ v ∧ v < 110 then "75"
  else if v = 110 then "80"
  else if 111 ≤ v ∧ v < 115 then "86"
  else if 115 ≤ v ∧ v < 120 then "89"
  else if 120 ≤ v ∧ v ≤ 128 then "90"
  else "90"

/-- Exclusion predicate described by the spec: if `v≥110` exclude "30",
plus "86" when `v=110`; else exclude "80","86", plus "75" if `v<100`,
plus "70" if `v<90`, plus "60","61" if `v<80`. -/
def specExcluded (v : Int) (sm : String) : Bool :=
  if 110 ≤ v then
    sm == "30" || (decide (v = 110) && sm == "86")
  else
    sm == "80" || sm == "86"
      || (decide (v < 100) && sm == "75")
      || (decide (v < 90) && sm == "70")
      || (decide (v < 80) && (sm == "60" || sm == "61"))

/-- Base ordered list minus the spec's exclusion set, order preserved. -/
def specSmList (v : Int) : List String :=
  ["30", "52", "60", "61", "70", "75", "80", "86"].filter
    (fun sm => !(specExcluded v sm))

/-- Core post_args assembly (lines 150-153): arch flag, one gencode flag per
sm entry, the compute gencode flag, the ptxas verbosity flag, and -O2. -/
def assemblePostArgs (arch : String) (sm_list : List String) (compute : String) : List String :=
  [s!"-arch=sm_{arch}"]
    ++ sm_list.map (fun sm => s!"-gencode=arch=compute_{sm},code=sm_{sm}")
    ++ [s!"-gencode=arch=compute_{compute},code=compute_{compute}",
        "--ptxas-options=-v", "-O2"]

/-- Half-precision filtering (lines 155-156): with the toggle on, keep only
the flags not containing "52". -/
def applyHalfPrecision (half : Bool) (args : List String) : List String :=
  if half then args.filter (fun flag => !(pySubstr "52" flag)) else args

/-- Platform-specific tail of post_args (lines 158-167). -/
def platformPostArgs (half : Bool) (platform : String) : List String :=
  if platform = "win32" then
    ["-Xcompiler", "/MD", "-std=c++14", "-Xcompiler", "/openmp"]
      ++ (if half then ["-Xcompiler", "/D HALF_PRECISION"] else [])
  else
    ["-c", "--compiler-options", "\x27-fPIC\x27",
     "--compiler-options", "\x27-std=c++14\x27"]
      ++ (if half then ["--compiler-options", "\x27-D HALF_PRECISION\x27"] else [])

/-- Full `post_args` value as of line 173 of the source. -/
def buildPostArgs (half : Bool) (platform arch : String) (sm_list : List String)
    (compute : String) : List String :=
  applyHalfPrecision half (assemblePostArgs arch sm_list compute)
    ++ platformPostArgs half platform

/-- Version parsing (lines 139-144): `basename(realpath(home))` is split on
"-" and the second segment split on "."; a bare `except` catches the index
error of that first attempt only, falling back to splitting the whole name
on ".".  The subsequent indexing and `int()` conversions are unguarded, so
their exceptions escape.  Returns `10*major + minor`. -/
def parseVersion (name : String) : Except PyExc Int :=
  let parts : List String :=
    match (pySplitChar '-' name).get? 1 with
    | some seg => pySplitChar '.' seg
    | none => pySplitChar '.' name
  match parts.get? 0 with
  | none => .error .indexError
  | some s0 =>
    match pyInt s0 with
    | none => .error .valueError
    | some major =>
      match parts.get? 1 with
      | none => .error .indexError
      | some s1 =>
        match pyInt s1 with
        | none => .error .valueError
        | some minor => .ok (10 * major + minor)

/-- Platform-specific nvcc binary name (lines 113-115). -/
def nvccBin (platform : String) : String :=
  if strStartsWith platform "win" then "nvcc.exe" else "nvcc"

/-- Home discovery (lines 117-134): first of CUDA_PATH, CUDAHOME, CUDA_HOME
wins; otherwise search PATH for the binary.  `ok none` is the
warning-and-return-None path; reading an unset PATH raises KeyError. -/
def findNvcc (os : OS) : Except PyExc (Option (String × String)) :=
  let tryEnv :=
    match os.env "CUDA_PATH" with
    | some h => some h
    | none =>
      match os.env "CUDAHOME" with
      | some h => some h
      | none => os.env "CUDA_HOME"
  match tryEnv with
  | some home => .ok (some (home, joinPath (joinPath home "bin") (nvccBin os.platform)))
  | none =>
    match os.env "PATH" with
    | none => .error .keyError
    | some pathVar =>
      match find_in_path os (nvccBin os.platform) pathVar with
      | none => .ok none
      | some nvcc => .ok (some (pyDirname (pyDirname nvcc), nvcc))

/-- The config entries validated at lines 168-171, in dict insertion order;
on win32 the lib64 entry was replaced by `lib/x64` (line 159). -/
def configEntries (os : OS) (home nvcc : String) : List (String × String) :=
  [("home", home),
   ("nvcc", nvcc),
   ("include", joinPath home "include"),
   ("lib64", if os.platform = "win32" then joinPath (joinPath home "lib") "x64"
             else joinPath home "lib64")]

/-- Warning emitted at line 130 when nvcc is not on the PATH. -/
def nvccWarning : String :=
  "The nvcc binary could not be located in your $PATH. Either add it to " ++
  "your path, or set $CUDA_HOME to enable CUDA extensions"

/-- Warning emitted at line 170 for a missing config path. -/
def cudaPathWarning (k v : String) : String :=
  "The CUDA " ++ k ++ " path could not be located in " ++ v

/-- A validated CUDA configuration (the dict returned at line 174). -/
structure CudaConfig where
  home : String
  nvcc : String
  includeDir : String
  lib64 : String
  post_args : List String
deriving DecidableEq, Repr

/-- `locate_cuda()` (lines 103-174).  The result is `ok (some cfg, ws)` for a
validated configuration, `ok (none, ws)` for the warn-and-return-None paths,
and `error e` when a Python exception escapes (version-parse IndexError or
ValueError, the `assert cuda_ver >= 70` failure, or KeyError on PATH). -/
def locate_cuda (os : OS) : Except PyExc (Option CudaConfig × List String) :=
  match findNvcc os with
  | .error e => .error e
  | .ok none => .ok (none, [nvccWarning])
  | .ok (some (home, nvcc)) =>
    match parseVersion (pyBasename (os.realpath home)) with
    | .error e => .error e
    | .ok cuda_ver =>
      if cuda_ver < 70 then .error .assertionError
      else
        let arch := get_cuda_arch os.env cuda_ver
        let sm_list := get_cuda_sm_list os.env cuda_ver
        let compute := get_cuda_compute os.env cuda_ver
        let post_args := buildPostArgs HALF_PRECISION os.platform arch sm_list compute
        let entries := configEntries os home nvcc
        match entries.find? (fun kv => !(os.pathExists kv.2)) with
        | some kv => .ok (none, [cudaPathWarning kv.1 kv.2])
        | none =>
          .ok (some { home := home, nvcc := nvcc,
                      includeDir := joinPath home "include",
                      lib64 := if os.platform = "win32"
                               then joinPath (joinPath home "lib") "x64"
                               else joinPath home "lib64",
                      post_args := post_args }, [])

/-- Concrete run for the C6 witness: CUDA_PATH points at a home whose
include subdirectory is absent. -/
def osMissingInclude : OS :=
  { env := fun n => if n = "CUDA_PATH" then some "/usr/local/cuda-11.0" else none,
    pathExists := fun p =>
      p == "/usr/local/cuda-11.0"
        || p == "/usr/local/cuda-11.0/bin/nvcc"
        || p == "/usr/local/cuda-11.0/lib64",
    platform := "linux",
    realpath := fun p => p,
    abspath := fun p => p }

/-- Home whose resolved base name has no digits at all. -/
def osHomeNoDigits : OS :=
  { env := fun n => if n = "CUDA_PATH" then some "/usr/local/cuda" else none,
    pathExists := fun _ => true,
    platform := "linux",
    realpath := fun p => p,
    abspath := fun p => p }

/-- Home whose resolved base name parses to one integer component only. -/
def osHomeOneComponent : OS :=
  { env := fun n => if n = "CUDA_PATH" then some "/opt/cuda-11" else none,
    pathExists := fun _ => true,
    platform := "linux",
    realpath := fun p => p,
    abspath := fun p => p }

/-- POSIX `os.path.splitext(p)[1]`: the extension starts at the last dot
after the last slash, unless every character between them is a dot. -/
def splitextExt (p : String) : String :=
  let cs := p.data
  match lastIdx '.' cs with
  | none => ""
  | some dotIdx =>
    let sepIdx : Int :=
      match lastIdx '/' cs with
      | some i => (i : Int)
      | none => -1
    if sepIdx < (dotIdx : Int) then
      let stem := (cs.drop (sepIdx + 1).toNat).take ((dotIdx : Int) - sepIdx - 1).toNat
      if stem.any (fun ch => ch != '.') then String.mk (cs.drop dotIdx) else ""
    else ""

/-- Arguments of one `_compile(obj, src, ext, cc_args, extra_postargs,
pp_opts)` call. -/
structure CompileArgs where
  obj : String
  src : String
  ext : String
  cc_args : List String
  extra_postargs : List String
  pp_opts : List String
deriving DecidableEq, Repr

/-- The mutable compiler-object state the dispatch touches. -/
structure CompilerState where
  compiler_so : List String
  linker_so : List String
deriving DecidableEq, Repr

/-- `CCompiler.set_executable('compiler_so', value)` for a string value:
distutils whitespace-splits it. -/
def set_executable (st : CompilerState) (value : String) : CompilerState :=
  let parts := (splitCharList ' ' value.data).filterMap
    (fun part => if part = [] then none else some (String.mk part))
  { st with compiler_so := parts }

/-- The superclass `_compile` invocation the dispatcher performs: the
compiler state in effect during the call and the arguments passed. -/
structure BaseCall where
  state : CompilerState
  args : CompileArgs
deriving DecidableEq, Repr

/-- Outcome of `_UnixCCompiler._compile` (lines 183-200): the one underlying
invocation, its propagated result, and the compiler state afterwards.
`baseOk` abstracts whether the underlying compile returns or raises. -/
structure DispatchOutcome where
  call : BaseCall
  result : Except Unit Unit
  final : CompilerState

/-- `_UnixCCompiler._compile` (lines 183-200): non-.cu sources go to the
superclass untouched; .cu sources get the nvcc executable and the
configured post_args, with the prior executable restored in a finally. -/
def uCompile (cuda : CudaConfig) (st : CompilerState) (a : CompileArgs)
    (baseOk : Bool) : DispatchOutcome :=
  if splitextExt a.src ≠ ".cu" then
    { call := { state := st, args := a },
      result := if baseOk then .ok () else .error (),
      final := st }
  else
    let saved := st.compiler_so
    let st2 := set_executable st cuda.nvcc
    { call := { state := st2, args := { a with extra_postargs := cuda.post_args } },
      result := if baseOk then .ok () else .error (),
      final := { st2 with compiler_so := saved } }

/-- Compiler implementations selectable by `CudaBuildExt.run`.  The
Unix-like toolchain-aware variant is `_UnixCCompiler` of the source.
Modelled from the spec: the Windows (MSVC) toolchain-aware variant is
referenced in the source as `_MSVCCompiler` but its definition is not in
`src/`; it is modelled as the abstract tag `msvcCuda`. -/
inductive CompilerImpl where
  | standard
  | unixCuda
  | msvcCuda
deriving DecidableEq, Repr

/-- Whether an implementation routes .cu files through the toolchain. -/
def isToolchainAware : CompilerImpl → Bool
  | .standard => false
  | _ => true

/-- `wrap_new_compiler` (lines 208-219): defer to the wrapped
`ccompiler.new_compiler`; if that raises `DistutilsPlatformError`, pick the
toolchain-aware variant for the host platform family. -/
def wrap_new_compiler (platform : String)
    (func : Except Unit CompilerImpl) : Except Unit CompilerImpl :=
  match func with
  | .ok c => .ok c
  | .error _ =>
    .ok (if platform ≠ "win32" then CompilerImpl.unixCuda
         else CompilerImpl.msvcCuda)

/-- The compiler selection performed by `CudaBuildExt.run` (lines 206-225):
only when a valid CUDA configuration exists is `new_compiler` wrapped (and
`self.compiler = 'nvidia'` set so that the wrapped call raises). -/
def buildExtNewCompiler (cudaValid : Bool) (platform : String)
    (func : Except Unit CompilerImpl) : Except Unit CompilerImpl :=
  if cudaValid then wrap_new_compiler platform func else func

/-- **C1.** For every integer toolchain version, with the override variables
unset, the resolver returns exactly the tabulated arch flag and compute
flag, with the stated boundaries and version 110 a singleton case. -/
theorem resolver_matches_tables (env : String → Option String) (v : Int)
    (hArch : env "CUDA_ARCH" = none) (hCompute : env "CUDA_COMPUTE" = none) :
    get_cuda_arch env v = specArchFlag v ∧
    get_cuda_compute env v = specComputeFlag v := by
  constructor
  · unfold get_cuda_arch specArchFlag
    rw [hArch]
  · unfold get_cuda_compute specComputeFlag
    rw [hCompute]

/-- Witness for C1 at version 110 with an empty environment. -/
theorem resolver_matches_tables_witness :
    get_cuda_arch (fun _ => none) 110 = specArchFlag 110 ∧
    get_cuda_compute (fun _ => none) 110 = specComputeFlag 110 :=
  resolver_matches_tables (fun _ => none) 110 rfl rfl

/-- Pointwise bridge: membership in the code's filter list agrees with the
spec's exclusion predicate. -/
lemma contains_filter_list_eq_specExcluded (v : Int) (sm : String) :
    ((if (110 : Int) ≤ v then
        ["30"] ++ (if v = 110 then ["86"] else [])
      else
        ["80", "86"]
          ++ (if v < 100 then ["75"] else [])
          ++ (if v < 90 then ["70"] else [])
          ++ (if v < 80 then ["60", "61"] else [])) : List String).contains sm
      = specExcluded v sm := by
  unfold specExcluded
  by_cases h1 : (110 : Int) ≤ v
  · rw [if_pos h1, if_pos h1]
    by_cases h2 : v = 110 <;> simp [h2, List.contains, Bool.beq_eq_decide_eq]
  · rw [if_neg h1, if_neg h1]
    by_cases h3 : v < 100 <;> by_cases h4 : v < 90 <;> by_cases h5 : v < 80 <;>
      simp [h3, h4, h5, List.contains, Bool.or_assoc, Bool.beq_eq_decide_eq]

/-- **C2.** With the sm-list override unset, the computed sm list equals the
base ordered list minus the spec's version-dependent exclusion set, order
preserved; in particular version 110 yields ["52","60","61","70","75","80"]. -/
theorem sm_list_matches_spec (env : String → Option String) (v : Int)
    (h : env "CUDA_SM_LIST" = none) :
    get_cuda_sm_list env v = specSmList v ∧
    get_cuda_sm_list env 110 = ["52", "60", "61", "70", "75", "80"] := by
  constructor
  · unfold get_cuda_sm_list specSmList
    rw [h]
    refine List.filter_congr ?_
    intro sm _
    rw [contains_filter_list_eq_specExcluded]
  · unfold get_cuda_sm_list
    rw [h]
    decide

/-- Witness for C2 at version 95 with an empty environment. -/
theorem sm_list_matches_spec_witness :
    get_cuda_sm_list (fun _ => none) 95 = specSmList 95 ∧
    get_cuda_sm_list (fun _ => none) 110 = ["52", "60", "61", "70", "75", "80"] :=
  sm_list_matches_spec (fun _ => none) 95 rfl

/-- **C3, counterexample.** The claimed value for version 75 is wrong: the
code also filters "70", "60" and "61" there (75 < 90 and 75 < 80). -/
theorem sm_list_75_claim_false :
    ¬ (get_cuda_sm_list (fun _ => none) 75 = ["30", "52", "60", "61", "70"]) := by
  decide

/-- **C3, amended.** For version 75 with the sm-list override unset, the
computed sm list is the base list minus 80,86,75,70,60,61, i.e. ["30","52"]. -/
theorem sm_list_75_amended (env : String → Option String)
    (h : env "CUDA_SM_LIST" = none) :
    get_cuda_sm_list env 75 = ["30", "52"] := by
  unfold get_cuda_sm_list
  rw [h]
  decide

/-- Witness for the amended C3 with an empty environment. -/
theorem sm_list_75_amended_witness :
    get_cuda_sm_list (fun _ => none) 75 = ["30", "52"] :=
  sm_list_75_amended (fun _ => none) rfl

/-- **C7.** The assembled post_args list begins with, in order: the arch
flag, one gencode flag per sm-list entry in list order, the compute gencode
flag, the ptxas verbosity flag and the -O2 optimization flag. -/
theorem post_args_begins_with_resolved_flags (platform arch : String)
    (sm_list : List String) (compute : String) :
    ∃ rest, buildPostArgs HALF_PRECISION platform arch sm_list compute =
      [s!"-arch=sm_{arch}"]
        ++ sm_list.map (fun sm => s!"-gencode=arch=compute_{sm},code=sm_{sm}")
        ++ [s!"-gencode=arch=compute_{compute},code=compute_{compute}",
            "--ptxas-options=-v", "-O2"]
        ++ rest := by
  refine ⟨platformPostArgs HALF_PRECISION platform, ?_⟩
  simp [buildPostArgs, applyHalfPrecision, HALF_PRECISION, assemblePostArgs]

/-- **C9.** With the half-precision toggle enabled, every flag of the
assembled post_args containing "52" is removed and every other flag is kept
with its multiplicity unchanged. -/
theorem half_precision_removes_exactly_52 (arch : String) (sm_list : List String)
    (compute : String) (flag : String) :
    (applyHalfPrecision true (assemblePostArgs arch sm_list compute)).count flag =
      if pySubstr "52" flag then 0
      else (assemblePostArgs arch sm_list compute).count flag := by
  unfold applyHalfPrecision
  rw [if_pos rfl]
  by_cases h : pySubstr "52" flag
  · rw [if_pos h]
    refine List.count_eq_zero.mpr ?_
    intro hmem
    have hkeep := (List.mem_filter.mp hmem).2
    simp [h] at hkeep
  · rw [if_neg h]
    exact List.count_filter (by simp [h])

/-- **C6.** Whenever a `locate_cuda` run reaches validation and the home,
include or lib directory does not exist, the run returns absent together
with a warning naming a missing component; the computed configuration is
discarded wholesale. -/
theorem locate_discards_config_on_missing_path (os : OS) (home nvcc : String)
    (v : Int)
    (hfind : findNvcc os = .ok (some (home, nvcc)))
    (hver : parseVersion (pyBasename (os.realpath home)) = .ok v)
    (hfloor : ¬ v < 70)
    (hmiss : ∃ kv ∈ configEntries os home nvcc,
      kv.1 ∈ (["home", "include", "lib64"] : List String) ∧
        os.pathExists kv.2 = false) :
    ∃ k val, (k, val) ∈ configEntries os home nvcc ∧
      os.pathExists val = false ∧
      locate_cuda os = .ok (none, [cudaPathWarning k val]) := by
  obtain ⟨kv, hkvmem, _, hkvfalse⟩ := hmiss
  have hsome : (List.find? (fun kv => !(os.pathExists kv.2))
      (configEntries os home nvcc)).isSome := by
    rw [List.find?_isSome]
    exact ⟨kv, hkvmem, by simp [hkvfalse]⟩
  obtain ⟨kv0, hkv0⟩ := Option.isSome_iff_exists.mp hsome
  have hp := List.find?_some hkv0
  refine ⟨kv0.1, kv0.2, List.mem_of_find?_eq_some hkv0, by simpa using hp, ?_⟩
  simp only [locate_cuda, hfind, hver, if_neg hfloor, hkv0]

/-- Witness for C6 on `osMissingInclude`. -/
theorem locate_discards_config_witness :
    ∃ k val,
      (k, val) ∈ configEntries osMissingInclude "/usr/local/cuda-11.0"
        "/usr/local/cuda-11.0/bin/nvcc" ∧
      osMissingInclude.pathExists val = false ∧
      locate_cuda osMissingInclude = .ok (none, [cudaPathWarning k val]) :=
  locate_discards_config_on_missing_path osMissingInclude
    "/usr/local/cuda-11.0" "/usr/local/cuda-11.0/bin/nvcc" 110
    (by rfl) (by rfl) (by decide)
    ⟨("include", "/usr/local/cuda-11.0/include"),
      by decide, by decide, by decide⟩

/-- **C10.** Version parsing in `locate_cuda` is partial: a home directory
named "cuda" escapes with the integer-conversion error and one named
"cuda-11" escapes with the indexing error, instead of a warning plus an
absent result — the bare except guards only the first hyphen-split
attempt. -/
theorem locate_version_parse_partial :
    locate_cuda osHomeNoDigits = .error .valueError ∧
    locate_cuda osHomeOneComponent = .error .indexError := by
  constructor <;> rfl

/-- **C4.** A .cu source is compiled with the configured toolchain
executable and the full configured post_args in place of the host
compiler's executable and extra arguments; every other source reaches the
standard compile step with state and arguments unmodified. -/
theorem dispatch_substitutes_only_for_cu (cuda : CudaConfig)
    (st : CompilerState) (a : CompileArgs) (baseOk : Bool) :
    (splitextExt a.src = ".cu" →
      (uCompile cuda st a baseOk).call =
        { state := set_executable st cuda.nvcc,
          args := { a with extra_postargs := cuda.post_args } }) ∧
    (splitextExt a.src ≠ ".cu" →
      (uCompile cuda st a baseOk).call = { state := st, args := a } ∧
      (uCompile cuda st a baseOk).final = st) := by
  constructor
  · intro h
    unfold uCompile
    rw [if_neg (by simp [h])]
  · intro h
    unfold uCompile
    rw [if_pos h]
    exact ⟨rfl, rfl⟩

/-- Witness for C4: a .cu source and a .c source under a sample
configuration and state. -/
theorem dispatch_substitutes_only_for_cu_witness :
    ((uCompile
        { home := "/cuda", nvcc := "/cuda/bin/nvcc", includeDir := "/cuda/include",
          lib64 := "/cuda/lib64", post_args := ["-arch=sm_52"] }
        { compiler_so := ["cc"], linker_so := ["ld"] }
        { obj := "k.o", src := "k.cu", ext := ".cu", cc_args := ["-I."],
          extra_postargs := ["-O1"], pp_opts := [] } true).call =
      { state := { compiler_so := ["/cuda/bin/nvcc"], linker_so := ["ld"] },
        args := { obj := "k.o", src := "k.cu", ext := ".cu", cc_args := ["-I."],
                  extra_postargs := ["-arch=sm_52"], pp_opts := [] } }) ∧
    ((uCompile
        { home := "/cuda", nvcc := "/cuda/bin/nvcc", includeDir := "/cuda/include",
          lib64 := "/cuda/lib64", post_args := ["-arch=sm_52"] }
        { compiler_so := ["cc"], linker_so := ["ld"] }
        { obj := "m.o", src := "m.c", ext := ".c", cc_args := ["-I."],
          extra_postargs := ["-O1"], pp_opts := [] } true).call =
      { state := { compiler_so := ["cc"], linker_so := ["ld"] },
        args := { obj := "m.o", src := "m.c", ext := ".c", cc_args := ["-I."],
                  extra_postargs := ["-O1"], pp_opts := [] } }) := by
  constructor
  · exact ((dispatch_substitutes_only_for_cu _ _ _ true).1 (by decide)).trans
      (by rfl)
  · exact (((dispatch_substitutes_only_for_cu _ _ _ true).2 (by decide)).1).trans
      (by rfl)

/-- **C5.** After a dispatched .cu compile, whether the underlying step
returns or raises, the compiler executable setting equals its pre-dispatch
value. -/
theorem dispatch_restores_compiler_so (cuda : CudaConfig) (st : CompilerState)
    (a : CompileArgs) (baseOk : Bool) (h : splitextExt a.src = ".cu") :
    (uCompile cuda st a baseOk).final = st := by
  unfold uCompile
  rw [if_neg (by simp [h])]
  rfl

/-- Witness for C5: success and failure of the underlying compile on a .cu
source both leave the state intact. -/
theorem dispatch_restores_compiler_so_witness :
    (uCompile
      { home := "/cuda", nvcc := "/cuda/bin/nvcc", includeDir := "/cuda/include",
        lib64 := "/cuda/lib64", post_args := ["-arch=sm_52"] }
      { compiler_so := ["g++", "-pthread"], linker_so := ["ld"] }
      { obj := "k.o", src := "k.cu", ext := ".cu", cc_args := [],
        extra_postargs := [], pp_opts := [] } false).final =
    { compiler_so := ["g++", "-pthread"], linker_so := ["ld"] } :=
  dispatch_restores_compiler_so _ _ _ false (by decide)

/-- **C8.** With a valid toolchain configuration, the selection step
installs a toolchain-aware implementation matching the host platform
family: the Unix-like variant off win32 and the MSVC variant on win32. -/
theorem build_ext_selects_platform_variant (platform : String)
    (func : Except Unit CompilerImpl) (h : func = .error ()) :
    ∃ impl, buildExtNewCompiler true platform func = .ok impl ∧
      isToolchainAware impl = true ∧
      (platform = "win32" → impl = CompilerImpl.msvcCuda) ∧
      (platform ≠ "win32" → impl = CompilerImpl.unixCuda) := by
  subst h
  unfold buildExtNewCompiler wrap_new_compiler
  rw [if_pos rfl]
  by_cases hw : platform = "win32"
  · refine ⟨CompilerImpl.msvcCuda, ?_, rfl, fun _ => rfl, fun hn => absurd hw hn⟩
    rw [if_neg (by simp [hw])]
  · refine ⟨CompilerImpl.unixCuda, ?_, rfl, fun he => absurd he hw, fun _ => rfl⟩
    rw [if_pos hw]

/-- Witness for C8 on a Linux host with a failing standard selection. -/
theorem build_ext_selects_platform_variant_witness :
    ∃ impl, buildExtNewCompiler true "linux" (.error ()) = .ok impl ∧
      isToolchainAware impl = true ∧
      ("linux" = "win32" → impl = CompilerImpl.msvcCuda) ∧
      ("linux" ≠ "win32" → impl = CompilerImpl.unixCuda) :=
  build_ext_selects_platform_variant "linux" (.error ()) rfl
